import Mathlib

/-
Verification of the FITS cutout pipeline of the ibe image-archive gateway.

The definitions below are shallow embeddings of the C++ sources:
  src/src/cutout_pixel_box.cxx           (pixcen, cutout_pixel_box, search)
  src/src/Wcs.cxx, src/src/Wcs/*.cxx     (WCS adapter methods)
  src/src/stream_subimage/stream_subimage.cxx  (header rewrite, byte counting)
  src/src/nph-serve.cxx                  (parseBool, gzip selection)
C doubles are modeled as exact rationals, C long as integers, and C++
exceptions as Except values.
-/

namespace ibe

/-- Units enum from src/src/Cutout.h / Units.hxx: PIX, ARCSEC, ARCMIN, DEG, RAD. -/
inductive Units
  | PIX
  | ARCSEC
  | ARCMIN
  | DEG
  | RAD
deriving DecidableEq

/-- Coordinate pair, struct Coords from include/ibe/Coords.hxx: double c[2]; Units units. -/
structure Coords where
  c0 : ℚ
  c1 : ℚ
  units : Units
deriving DecidableEq

/-- The HTTP response codes raised on the cutout path. -/
inductive HttpResponseCode
  | BAD_REQUEST
  | INTERNAL_SERVER_ERROR
deriving DecidableEq

/-- An HTTP_EXCEPT value: response code plus message. -/
structure HttpError where
  code : HttpResponseCode
  msg : String
deriving DecidableEq

instance {α β : Type} [DecidableEq α] [DecidableEq β] :
    DecidableEq (Except α β) := fun a b =>
  match a, b with
  | .ok x, .ok y =>
    if h : x = y then .isTrue (by rw [h]) else .isFalse (by simp [h])
  | .error x, .error y =>
    if h : x = y then .isTrue (by rw [h]) else .isFalse (by simp [h])
  | .ok _, .error _ => .isFalse (by simp)
  | .error _, .ok _ => .isFalse (by simp)

/-- Unit conversion constant from cutout_pixel_box.cxx line 14. -/
def DEG_PER_RAD : ℚ := 57.2957795130823208767981548141

/-- Unit conversion constant from cutout_pixel_box.cxx line 13. -/
def RAD_PER_DEG : ℚ := 0.0174532925199432957692369076849

/-- Unit conversion constant from cutout_pixel_box.cxx line 15. -/
def RAD_PER_ARCMIN : ℚ := 0.000290888208665721596153948461415

/-- Unit conversion constant from cutout_pixel_box.cxx line 16. -/
def RAD_PER_ARCSEC : ℚ := 0.00000484813681109535993589914102357

/-- C truncation toward zero, the value of a double-to-long cast
(static_cast<long>) and the implicit quotient of std::fmod. -/
def rtrunc (x : ℚ) : ℤ := if 0 ≤ x then ⌊x⌋ else ⌈x⌉

/-- C std::fmod x y = x - y * trunc (x / y). -/
def fmod (x y : ℚ) : ℚ := x - y * (rtrunc (x / y) : ℚ)

/-- pixcen from cutout_pixel_box.cxx line 20 and
streamSubImage/cutoutPixelBox/pixcen.hxx line 9:
return std::floor (x + 0.5).  The value is an integer; we give it type ℤ. -/
def pixcen (x : ℚ) : ℤ := ⌊x + 1 / 2⌋

/-- The WCS state built from a FITS header, modeled as an oracle.  The two
conversion methods may fail with an HttpError (Wcs.cxx throws
INTERNAL_SERVER_ERROR from sky_to_pixel when the library reports off
scale; pixel_to_sky never throws in that variant, but the model allows
failure so all source variants are covered).  The field search_p models
the final pre-rounding coordinate p[dim] computed by the iterative
boundary search of cutout_pixel_box.cxx lines 147-174; its loop body
evaluates transcendental floating-point trigonometry through the WCS
library, so its value is treated as opaque.  The arguments are, in
order: sky center, pixel center, target size in radians, the axis
(false for 0, true for 1) and the direction (-1 or +1). -/
structure Wcs where
  pixel_to_sky : ℚ × ℚ → Except HttpError (ℚ × ℚ)
  sky_to_pixel : ℚ × ℚ → Except HttpError (ℚ × ℚ)
  search_p : ℚ × ℚ → ℚ × ℚ → ℚ → Bool → ℤ → ℚ

/-- search, cutout_pixel_box.cxx line 175: the function returns
pixcen (p[dim]) where p[dim] is the final coordinate of the loop. -/
def search (w : Wcs) (sky pix : ℚ × ℚ) (size : ℚ) (dim : Bool) (dir : ℤ) : ℚ :=
  (pixcen (w.search_p sky pix size dim dir) : ℚ)

/-- Degree conversion of the center, cutout_pixel_box.cxx lines 47-62
(the switch on center.units; PIX and DEG leave the values unchanged). -/
def to_degrees (center : Coords) : ℚ × ℚ :=
  match center.units with
  | Units.ARCSEC => (center.c0 / 3600, center.c1 / 3600)
  | Units.ARCMIN => (center.c0 / 60, center.c1 / 60)
  | Units.RAD => (center.c0 * DEG_PER_RAD, center.c1 * DEG_PER_RAD)
  | _ => (center.c0, center.c1)

/-- Longitude wrap, cutout_pixel_box.cxx lines 67-73:
fmod by 360, add 360 to negatives, collapse a resulting 360 to 0. -/
def wrap_lon (x : ℚ) : ℚ :=
  let m := fmod x 360
  if m < 0 then
    let m2 := m + 360
    if m2 = 360 then 0 else m2
  else m

/-- Conversion of a non-pixel center to normalized degrees,
cutout_pixel_box.cxx lines 46-75: convert units, reject declination
outside [-90, 90], wrap the longitude. -/
def normalize_center (center : Coords) : Except HttpError (ℚ × ℚ) :=
  let d := to_degrees center
  if d.2 < -90 ∨ 90 < d.2 then
    .error ⟨HttpResponseCode.BAD_REQUEST,
            "Center declination out of range [-90, 90] deg"⟩
  else
    .ok (wrap_lon d.1, d.2)

/-- Mapping of the cutout center to (sky coordinates, pixel coordinates),
cutout_pixel_box.cxx lines 43-77: a PIX center is projected to sky by
pixel_to_sky and kept as the pixel center; otherwise the center is
normalized to degrees and projected to pixels by sky_to_pixel. -/
def map_center (w : Wcs) (center : Coords) :
    Except HttpError ((ℚ × ℚ) × (ℚ × ℚ)) :=
  if center.units = Units.PIX then
    match w.pixel_to_sky (center.c0, center.c1) with
    | .error e => .error e
    | .ok sky => .ok (sky, (center.c0, center.c1))
  else
    match normalize_center center with
    | .error e => .error e
    | .ok sky =>
      match w.sky_to_pixel sky with
      | .error e => .error e
      | .ok pc => .ok (sky, pc)

/-- Radian conversion of the size, cutout_pixel_box.cxx lines 82-97. -/
def size_to_rad (size : Coords) : ℚ × ℚ :=
  match size.units with
  | Units.ARCSEC => (size.c0 * RAD_PER_ARCSEC, size.c1 * RAD_PER_ARCSEC)
  | Units.ARCMIN => (size.c0 * RAD_PER_ARCMIN, size.c1 * RAD_PER_ARCMIN)
  | Units.DEG => (size.c0 * RAD_PER_DEG, size.c1 * RAD_PER_DEG)
  | _ => (size.c0, size.c1)

/-- The pixcen-derived bounds (xmin, ymin, xmax, ymax) of
cutout_pixel_box.cxx lines 103-106 and 109-112:
pixcen (center - size * 0.5) and pixcen (center + size * 0.5) per axis. -/
def pix_bounds (c s : ℚ × ℚ) : ℚ × ℚ × ℚ × ℚ :=
  ((pixcen (c.1 - s.1 * (1 / 2)) : ℚ), (pixcen (c.2 - s.2 * (1 / 2)) : ℚ),
   (pixcen (c.1 + s.1 * (1 / 2)) : ℚ), (pixcen (c.2 + s.2 * (1 / 2)) : ℚ))

/-- The pre-clip bounds (xmin, ymin, xmax, ymax) computed by
cutout_pixel_box.cxx lines 39-113, exceptions as Except errors. -/
def compute_bounds (w : Wcs) (center size : Coords) :
    Except HttpError (ℚ × ℚ × ℚ × ℚ) :=
  if center.units ≠ Units.PIX ∨ size.units ≠ Units.PIX then
    match map_center w center with
    | .error e => .error e
    | .ok sc =>
      if size.c0 < 0 ∨ size.c1 < 0 then
        .error ⟨HttpResponseCode.BAD_REQUEST, "Negative cutout size"⟩
      else if size.units ≠ Units.PIX then
        let s := size_to_rad size
        .ok (search w sc.1 sc.2 (s.1 * (1 / 2)) false (-1),
             search w sc.1 sc.2 (s.2 * (1 / 2)) true (-1),
             search w sc.1 sc.2 (s.1 * (1 / 2)) false 1,
             search w sc.1 sc.2 (s.2 * (1 / 2)) true 1)
      else
        .ok (pix_bounds sc.2 (size.c0, size.c1))
  else
    .ok (pix_bounds (center.c0, center.c1) (size.c0, size.c1))

/-- Pixel-space cutout box, stored as box[0..3] = xmin, ymin, xmax, ymax. -/
structure PixBox where
  xmin : ℤ
  ymin : ℤ
  xmax : ℤ
  ymax : ℤ
deriving DecidableEq

/-- Overlap test and clip, cutout_pixel_box.cxx lines 115-125: return none
when the box misses the image, else clamp into [1, naxis] per axis.  The
static_cast<long> of the source is rtrunc. -/
def clip_box (xmin ymin xmax ymax : ℚ) (n1 n2 : ℤ) : Option PixBox :=
  if xmin > (n1 : ℚ) ∨ ymin > (n2 : ℚ) ∨ xmax < 1 ∨ ymax < 1 then
    none
  else
    some ⟨rtrunc (max 1 xmin), rtrunc (max 1 ymin),
          rtrunc (min (n1 : ℚ) xmax), rtrunc (min (n2 : ℚ) ymax)⟩

/-- cutout_pixel_box, cutout_pixel_box.cxx lines 30-126 (identical logic in
stream_subimage/cutoutPixelBox/cutoutPixelBox.cxx lines 23-137): compute
the pre-clip bounds, then test overlap and store the clipped box.
Returns ok none for no overlap (the C function returns false). -/
def cutout_pixel_box (w : Wcs) (center size : Coords) (n1 n2 : ℤ) :
    Except HttpError (Option PixBox) :=
  match compute_bounds w center size with
  | .error e => .error e
  | .ok b => .ok (clip_box b.1 b.2.1 b.2.2.1 b.2.2.2 n1 n2)

/-- A concrete WCS oracle used to evaluate WCS-independent paths. -/
def wcs0 : Wcs where
  pixel_to_sky := fun p => .ok p
  sky_to_pixel := fun s => .ok s
  search_p := fun _ _ _ _ _ => 0

/-- Model of the wcslib calls wcsp2s and wcss2p used by Wcs/pixelToSky.cxx
and Wcs/skyToPixel.cxx: each call yields a return code and the converted
coordinate pair.  lng models the _wcs->lng axis index. -/
structure Wcslib where
  wcsp2s : ℚ × ℚ → ℤ × (ℚ × ℚ)
  wcss2p : ℚ × ℚ → ℤ × (ℚ × ℚ)
  lng : ℤ

/-- Wcs::pixelToSky, Wcs/pixelToSky.cxx lines 6-26: call wcsp2s; return
code 9 raises BAD_REQUEST, any other non-zero code raises
INTERNAL_SERVER_ERROR; on success the sky components are swapped when
the longitude axis is not axis 0. -/
def pixelToSky (w : Wcslib) (pix : ℚ × ℚ) : Except HttpError (ℚ × ℚ) :=
  let r := w.wcsp2s pix
  if r.1 = 9 then
    .error ⟨HttpResponseCode.BAD_REQUEST, "Invalid pixel coordinates"⟩
  else if r.1 ≠ 0 then
    .error ⟨HttpResponseCode.INTERNAL_SERVER_ERROR,
            "Failed to convert pixel coordinates to sky coordinates"⟩
  else
    .ok (if w.lng ≠ 0 then (r.2.2, r.2.1) else r.2)

/-- Wcs::skyToPixel, Wcs/skyToPixel.cxx lines 6-24: call wcss2p; return
code 9 raises BAD_REQUEST, any other non-zero code raises
INTERNAL_SERVER_ERROR. -/
def skyToPixel (w : Wcslib) (sky : ℚ × ℚ) : Except HttpError (ℚ × ℚ) :=
  let r := w.wcss2p sky
  if r.1 = 9 then
    .error ⟨HttpResponseCode.BAD_REQUEST, "Invalid sky coordinates"⟩
  else if r.1 ≠ 0 then
    .error ⟨HttpResponseCode.INTERNAL_SERVER_ERROR,
            "Failed to convert sky coordinates to pixel coordinates"⟩
  else
    .ok r.2

/-- Model of the wcstools calls pix2wcs and wcsc2pix used by
Wcs/pixel_to_sky.cxx and Wcs/sky_to_pixel.cxx (and Wcs.cxx): each call
yields the converted pair together with the library failure flag
(the off-scale indicator; pix2wcs records it in the wcs struct, wcsc2pix
stores it through its last argument). -/
structure Wcstools where
  pix2wcs : ℚ × ℚ → (ℚ × ℚ) × ℤ
  wcsc2pix : ℚ × ℚ → (ℚ × ℚ) × ℤ

/-- Wcs::pixel_to_sky, Wcs/pixel_to_sky.cxx lines 5-7: call pix2wcs and
return its output; the library failure flag is never inspected, so the
conversion never reports an error. -/
def pixel_to_sky (w : Wcstools) (pix : ℚ × ℚ) : Except HttpError (ℚ × ℚ) :=
  .ok (w.pix2wcs pix).1

/-- Wcs::sky_to_pixel, Wcs/sky_to_pixel.cxx lines 6-18: call wcsc2pix;
when the off_scale flag equals 1 raise INTERNAL_SERVER_ERROR, otherwise
return the pixel pair. -/
def sky_to_pixel (w : Wcstools) (sky : ℚ × ℚ) : Except HttpError (ℚ × ℚ) :=
  let r := w.wcsc2pix sky
  if r.2 = 1 then
    .error ⟨HttpResponseCode.INTERNAL_SERVER_ERROR,
            "Failed to convert sky coordinates to pixel coordinates"⟩
  else
    .ok r.1

/-- A wcstools library model whose calls both report failure code 9. -/
def wcstools9 : Wcstools where
  pix2wcs := fun _ => ((0, 0), 9)
  wcsc2pix := fun _ => ((0, 0), 9)

/-- A wcslib library model whose conversions both report code 9. -/
def wcslib9 : Wcslib where
  wcsp2s := fun _ => (9, (0, 0))
  wcss2p := fun _ => (9, (0, 0))
  lng := 0

/-- One 80-byte header card of the converted header string walked by
stream_subimage.cxx lines 375-467.  raw models the raw card bytes
(written verbatim for unmodified cards, and tested by the strncmp skip
rules); keyname, value and comment model the fields extracted by
parse_card, with numeric values exact. -/
structure Card where
  raw : List Char
  keyname : List Char
  value : ℚ
  comment : List Char
deriving DecidableEq

/-- A card value emitted by write_card: numeric or quoted string. -/
inductive CardValue
  | num (q : ℚ)
  | str (s : List Char)
deriving DecidableEq

/-- One emitted header card: either the raw 80 source bytes copied
unchanged (writer.write at line 464) or a card rebuilt by write_card. -/
inductive OutCard
  | raw (s : List Char)
  | made (keyname : List Char) (value : CardValue) (comment : List Char)
deriving DecidableEq

/-- The key-dependent value rewrite of stream_subimage.cxx lines 404-448:
NAXIS1/NAXIS2 become the box size, LTV1/LTV2 gain (box min - 1),
CRPIX1/CRPIX2 and the alternate CRPIX{1,2}[A-Z] gain (1 - box min);
none means the card is not modified. -/
def modify_value (box : PixBox) (keyname : List Char) (v : ℚ) : Option ℚ :=
  match keyname with
  | 'N' :: 'A' :: 'X' :: 'I' :: 'S' :: rest =>
    match rest with
    | [d] =>
      if d = '1' then some ((box.xmax - box.xmin + 1 : ℤ) : ℚ)
      else if d = '2' then some ((box.ymax - box.ymin + 1 : ℤ) : ℚ)
      else none
    | _ => none
  | 'L' :: 'T' :: 'V' :: rest =>
    match rest with
    | [d] =>
      if d = '1' then some (v + ((box.xmin : ℚ) - 1))
      else if d = '2' then some (v + ((box.ymin : ℚ) - 1))
      else none
    | _ => none
  | 'C' :: 'R' :: 'P' :: 'I' :: 'X' :: rest =>
    match rest with
    | [d] =>
      if d = '1' then some (v + (1 - (box.xmin : ℚ)))
      else if d = '2' then some (v + (1 - (box.ymin : ℚ)))
      else none
    | [d, a] =>
      if ('A' ≤ a ∧ a ≤ 'Z') then
        if d = '1' then some (v + (1 - (box.xmin : ℚ)))
        else if d = '2' then some (v + (1 - (box.ymin : ℚ)))
        else none
      else none
    | _ => none
  | _ => none

/-- Card skips applied only to de-compressed (tile-compressed) images,
stream_subimage.cxx lines 377-391: the EXTEND card, the two standard
reference comments, and pre-existing PCOUNT and GCOUNT. -/
def skip_compressed (raw : List Char) : Bool :=
  "EXTEND  ".toList.isPrefixOf raw ||
  "COMMENT   FITS (Flexible Image Transport System) format is".toList.isPrefixOf raw ||
  "COMMENT   and Astrophysics\x27, volume 376, page 3".toList.isPrefixOf raw ||
  "PCOUNT  ".toList.isPrefixOf raw ||
  "GCOUNT  ".toList.isPrefixOf raw

/-- CHECKSUM and DATASUM drop, stream_subimage.cxx lines 395-399. -/
def skip_checksum (raw : List Char) : Bool :=
  "CHECKSUM".toList.isPrefixOf raw ||
  "DATASUM ".toList.isPrefixOf raw

/-- PCOUNT card inserted after the rewritten NAXIS2 of a de-compressed
image, stream_subimage.cxx line 456. -/
def pcount_card : OutCard :=
  OutCard.made "PCOUNT".toList (CardValue.num 0)
    "number of random group parameters".toList

/-- GCOUNT card inserted after PCOUNT, stream_subimage.cxx line 458. -/
def gcount_card : OutCard :=
  OutCard.made "GCOUNT".toList (CardValue.num 1)
    "number of random groups".toList

/-- The per-card loop of stream_subimage.cxx lines 375-467: apply the skip
rules, rewrite the keys matched by modify_value, copy everything else
verbatim, and for a de-compressed image insert PCOUNT and GCOUNT right
after the rewritten NAXIS2. -/
def process_cards (is_comp : Bool) (box : PixBox) : List Card → List OutCard
  | [] => []
  | c :: rest =>
    if is_comp && skip_compressed c.raw then
      process_cards is_comp box rest
    else if skip_checksum c.raw then
      process_cards is_comp box rest
    else
      match modify_value box c.keyname c.value with
      | some v =>
        if is_comp && (c.keyname = "NAXIS2".toList) then
          OutCard.made c.keyname (CardValue.num v) c.comment ::
            pcount_card :: gcount_card :: process_cards is_comp box rest
        else
          OutCard.made c.keyname (CardValue.num v) c.comment ::
            process_cards is_comp box rest
      | none => OutCard.raw c.raw :: process_cards is_comp box rest

/-- The cards contributed by one source card to the rewritten header: the
per-iteration effect of the loop of stream_subimage.cxx lines 375-467
(empty for skipped cards, a rebuilt card for modified keys with the
PCOUNT and GCOUNT insertion after a compressed NAXIS2, the raw source
bytes otherwise). -/
def emit_card (is_comp : Bool) (box : PixBox) (c : Card) : List OutCard :=
  if is_comp && skip_compressed c.raw then []
  else if skip_checksum c.raw then []
  else
    match modify_value box c.keyname c.value with
    | some v =>
      if is_comp && (c.keyname = "NAXIS2".toList) then
        [OutCard.made c.keyname (CardValue.num v) c.comment,
         pcount_card, gcount_card]
      else [OutCard.made c.keyname (CardValue.num v) c.comment]
    | none => [OutCard.raw c.raw]

/-- XTENSION card replacing the SIMPLE card of a de-compressed image,
stream_subimage.cxx lines 366-367. -/
def xtension_card : OutCard :=
  OutCard.made "XTENSION".toList (CardValue.str "\x27IMAGE   \x27".toList)
    "IMAGE extension".toList

/-- The full rewritten-header card stream of one cutout image HDU,
stream_subimage.cxx lines 361-467: for a de-compressed image the first
source card (SIMPLE) is replaced by an XTENSION card, then the card loop
runs over the remaining cards. -/
def emit_header_cards (is_comp : Bool) (box : PixBox) (cards : List Card) :
    List OutCard :=
  if is_comp then xtension_card :: process_cards true box (cards.drop 1)
  else process_cards false box cards

/-- FITS block length, stream_subimage.cxx line 24. -/
def FITS_BLOCK_LENGTH : ℕ := 2880

/-- FITS card length, stream_subimage.cxx line 23. -/
def FITS_CARD_LENGTH : ℕ := 80

/-- The pad-to-block-boundary computation shared by end_header (lines
35-41, space fill) and write_subimage (lines 278-284, zero fill): when
the cumulative byte count is not a multiple of the block size, write
filler up to the next block boundary. -/
def pad_block (n1 : ℕ) : ℕ :=
  if n1 % FITS_BLOCK_LENGTH ≠ 0 then
    n1 + (FITS_BLOCK_LENGTH - n1 % FITS_BLOCK_LENGTH)
  else n1

/-- end_header, stream_subimage.cxx lines 26-43: optionally write the END
card (3 bytes) and pad the byte count with spaces to a multiple of the
block size.  Returns the new cumulative byte count. -/
def end_header (num_bytes : ℕ) (write_end_card : Bool) : ℕ :=
  pad_block (if write_end_card then num_bytes + 3 else num_bytes)

/-- copy_header, stream_subimage.cxx lines 46-64: write the nkeys used
cards of the current HDU (80 bytes each), then END and space padding. -/
def copy_header (nkeys : ℕ) (num_bytes : ℕ) : ℕ :=
  end_header (num_bytes + FITS_CARD_LENGTH * nkeys) true

/-- copy_data, stream_subimage.cxx lines 67-92: copy the whole-block run
of the HDU data, num_blocks blocks of 2880 bytes each. -/
def copy_data (num_blocks : ℕ) (num_bytes : ℕ) : ℕ :=
  num_bytes + FITS_BLOCK_LENGTH * num_blocks

/-- Bytes per pixel selected from BITPIX, stream_subimage.cxx line 232:
abs (bitpix) / 8. -/
def bytes_per_pixel (bitpix : ℤ) : ℕ := bitpix.natAbs / 8

/-- write_subimage, stream_subimage.cxx lines 188-286, byte count only:
the non-compressed path writes one row of (xmax - xmin + 1) pixels for
each y in [ymin, ymax]; the tile-compressed path writes the whole
subimage in one call; both then pad with zero bytes to a multiple of
the block size. -/
def write_subimage (_is_comp : Bool) (box : PixBox) (bitpix : ℤ)
    (num_bytes : ℕ) : ℕ :=
  let row_bytes := (box.xmax - box.xmin + 1).toNat * bytes_per_pixel bitpix
  let rows := (box.ymax - box.ymin + 1).toNat
  pad_block (num_bytes + row_bytes * rows)

/-- The byte count of one rewritten cutout image HDU, stream_subimage.cxx
lines 361-469: 80 bytes per emitted header card, the header padding of
end_header (without a new END card: the source END card is among the
copied cards), then the sub-image payload with its zero padding. -/
def stream_cutout_hdu (is_comp : Bool) (box : PixBox) (bitpix : ℤ)
    (cards : List Card) (num_bytes : ℕ) : ℕ :=
  write_subimage is_comp box bitpix
    (end_header
      (num_bytes + FITS_CARD_LENGTH * (emit_header_cards is_comp box cards).length)
      false)

/-- A regular expression over characters, as compiled by boost::regex for
the two patterns of parseBool (nph-serve.cxx lines 139-142). -/
inductive RE
  | emp
  | eps
  | cls (cs : List Char)
  | ichar (c : Char)
  | cat (a b : RE)
  | alt (a b : RE)
  | star (a : RE)

/-- Nullability: whether the expression accepts the empty string. -/
def nullable : RE → Bool
  | RE.emp => false
  | RE.eps => true
  | RE.cls _ => false
  | RE.ichar _ => false
  | RE.cat a b => nullable a && nullable b
  | RE.alt a b => nullable a || nullable b
  | RE.star _ => true

/-- Brzozowski derivative by one character; ichar compares
case-insensitively, modeling boost::regex::icase. -/
def deriv (r : RE) (x : Char) : RE :=
  match r with
  | RE.emp => RE.emp
  | RE.eps => RE.emp
  | RE.cls cs => if x ∈ cs then RE.eps else RE.emp
  | RE.ichar c => if x.toLower = c.toLower then RE.eps else RE.emp
  | RE.cat a b =>
    if nullable a then RE.alt (RE.cat (deriv a x) b) (deriv b x)
    else RE.cat (deriv a x) b
  | RE.alt a b => RE.alt (deriv a x) (deriv b x)
  | RE.star a => RE.cat (deriv a x) (RE.star a)

/-- Whole-string regex match (boost::regex_match semantics). -/
def re_match (r : RE) (s : List Char) : Bool :=
  nullable (s.foldl deriv r)

/-- Sequence of case-insensitive literal characters. -/
def istr (s : String) : RE :=
  s.toList.foldr (fun c r => RE.cat (RE.ichar c) r) RE.eps

/-- An optional subexpression (the ? postfix). -/
def opt (r : RE) : RE := RE.alt RE.eps r

/-- The whitespace class bs-s of boost::regex. -/
def wsClass : RE := RE.cls [' ', '\t', '\n', '\x0b', '\x0c', '\r']

/-- The true pattern of parseBool, nph-serve.cxx line 139:
whitespace, (1|on?|y(es)?|t(rue)?), whitespace, case-insensitive. -/
def trueRe : RE :=
  RE.cat (RE.star wsClass)
    (RE.cat
      (RE.alt (istr "1")
        (RE.alt (RE.cat (RE.ichar 'o') (opt (RE.ichar 'n')))
          (RE.alt (RE.cat (RE.ichar 'y') (opt (istr "es")))
            (RE.cat (RE.ichar 't') (opt (istr "rue"))))))
      (RE.star wsClass))

/-- The false pattern of parseBool, nph-serve.cxx line 141:
whitespace, (0|no?|o(ff?)?|f(alse)?), whitespace, case-insensitive. -/
def falseRe : RE :=
  RE.cat (RE.star wsClass)
    (RE.cat
      (RE.alt (istr "0")
        (RE.alt (RE.cat (RE.ichar 'n') (opt (RE.ichar 'o')))
          (RE.alt (RE.cat (RE.ichar 'o') (opt (RE.cat (RE.ichar 'f') (opt (RE.ichar 'f')))))
            (RE.cat (RE.ichar 'f') (opt (istr "alse"))))))
      (RE.star wsClass))

/-- parseBool, nph-serve.cxx lines 136-163: absent parameter yields the
default; a value is tested against the true pattern first, then the
false pattern; anything else is BAD_REQUEST.  The two adjacent C string
literals of the message concatenate without a space after "one of". -/
def parseBool (key : String) (value : Option (List Char)) (defaultValue : Bool) :
    Except HttpError Bool :=
  match value with
  | none => .ok defaultValue
  | some v =>
    if re_match trueRe v then .ok true
    else if re_match falseRe v then .ok false
    else
      .error ⟨HttpResponseCode.BAD_REQUEST,
        "Value of " ++ key ++ " parameter must equal (case insensitively) one of" ++
        "1,y[es],t[rue],on or 0,n[o],f[alse],off"⟩

/-- The gzip selection of the cutout branch, nph-serve.cxx lines 624-641:
isGzip = parseBool (env, gzip, true); when true the sub-image stream is
written through a GZIPWriter, else through the raw MemoryWriter. -/
def cutout_uses_gzip (gzip_param : Option (List Char)) : Except HttpError Bool :=
  parseBool "gzip" gzip_param true

theorem rtrunc_of_nonneg {x : ℚ} (h : 0 ≤ x) : rtrunc x = ⌊x⌋ := if_pos h

theorem floor_bounds (x : ℚ) : (⌊x⌋ : ℚ) ≤ x ∧ x < ⌊x⌋ + 1 :=
  ⟨Int.floor_le x, Int.lt_floor_add_one x⟩

theorem fmod_360_bounds (x : ℚ) : -360 < fmod x 360 ∧ fmod x 360 < 360 := by
  unfold fmod rtrunc
  rcases le_or_lt 0 (x / 360) with h | h
  · rw [if_pos h]
    have h1 : (⌊x / 360⌋ : ℚ) ≤ x / 360 := Int.floor_le _
    have h2 : x / 360 < ⌊x / 360⌋ + 1 := Int.lt_floor_add_one _
    have h1' : (⌊x / 360⌋ : ℚ) * 360 ≤ x := (le_div_iff₀ (by norm_num)).mp h1
    have h2' : x < ((⌊x / 360⌋ : ℚ) + 1) * 360 := (div_lt_iff₀ (by norm_num)).mp h2
    constructor <;> nlinarith
  · rw [if_neg (not_le.mpr h)]
    have h1 : x / 360 ≤ (⌈x / 360⌉ : ℚ) := Int.le_ceil _
    have h2 : (⌈x / 360⌉ : ℚ) < x / 360 + 1 := Int.ceil_lt_add_one _
    have h1' : x ≤ (⌈x / 360⌉ : ℚ) * 360 := (div_le_iff₀ (by norm_num)).mp h1
    have h2' : ((⌈x / 360⌉ : ℚ) - 1) * 360 < x := by
      have h3 : (⌈x / 360⌉ : ℚ) - 1 < x / 360 := by linarith
      exact (lt_div_iff₀ (by norm_num)).mp h3
    constructor <;> nlinarith

theorem wrap_lon_bounds (x : ℚ) : 0 ≤ wrap_lon x ∧ wrap_lon x < 360 := by
  obtain ⟨hlo, hhi⟩ := fmod_360_bounds x
  unfold wrap_lon
  rcases lt_or_le (fmod x 360) 0 with h | h
  · rw [if_pos h]
    by_cases h360 : fmod x 360 + 360 = 360
    · simp only [h360, if_pos rfl]
      norm_num
    · simp only [if_neg h360]
      constructor <;> linarith
  · rw [if_neg (not_lt.mpr h)]
    exact ⟨h, hhi⟩

/-- C2 (counterexample): at x = 1/2 the code gives pixcen x = 1 and the
difference pixcen x - x equals 1/2, which is outside the claimed
half-open interval [-0.5, 0.5). -/
theorem pixcen_convention_counterexample :
    pixcen (1 / 2) = 1 ∧
    ¬(-(1 / 2) ≤ (pixcen (1 / 2) : ℚ) - 1 / 2 ∧
      (pixcen (1 / 2) : ℚ) - 1 / 2 < 1 / 2) := by
  have h : pixcen (1 / 2) = 1 := by
    unfold pixcen
    norm_num
  refine ⟨h, ?_⟩
  rw [h]
  norm_num

/-- C2 (amended): for every rational x, pixcen x = floor (x + 0.5) is an
integer and the difference pixcen x - x lies in the half-open interval
(-0.5, 0.5] (open below, closed above, rather than the claimed
[-0.5, 0.5)). -/
theorem pixcen_convention_amended (x : ℚ) :
    (∃ n : ℤ, (pixcen x : ℚ) = (n : ℚ)) ∧
    -(1 / 2) < (pixcen x : ℚ) - x ∧ (pixcen x : ℚ) - x ≤ 1 / 2 := by
  refine ⟨⟨pixcen x, rfl⟩, ?_, ?_⟩ <;>
    unfold pixcen <;>
    have h1 := Int.floor_le (x + 1 / 2) <;>
    have h2 := Int.lt_floor_add_one (x + 1 / 2) <;>
    linarith

theorem compute_bounds_pix (w : Wcs) (c0 c1 s0 s1 : ℚ) :
    compute_bounds w ⟨c0, c1, Units.PIX⟩ ⟨s0, s1, Units.PIX⟩ =
      .ok (pix_bounds (c0, c1) (s0, s1)) := by
  unfold compute_bounds
  simp

theorem cutout_pixel_box_pix (w : Wcs) (c0 c1 s0 s1 : ℚ) (n1 n2 : ℤ) :
    cutout_pixel_box w ⟨c0, c1, Units.PIX⟩ ⟨s0, s1, Units.PIX⟩ n1 n2 =
      .ok (clip_box ((pixcen (c0 - s0 * (1 / 2)) : ℚ))
        ((pixcen (c1 - s1 * (1 / 2)) : ℚ))
        ((pixcen (c0 + s0 * (1 / 2)) : ℚ))
        ((pixcen (c1 + s1 * (1 / 2)) : ℚ)) n1 n2) := by
  unfold cutout_pixel_box
  rw [compute_bounds_pix]
  rfl

theorem pixcen_50_minus : pixcen (50 - 11 * (1 / 2) : ℚ) = 45 := by
  unfold pixcen
  norm_num

theorem pixcen_50_plus : pixcen (50 + 11 * (1 / 2) : ℚ) = 56 := by
  unfold pixcen
  norm_num

theorem clip_s1 : clip_box ((45 : ℤ) : ℚ) ((45 : ℤ) : ℚ) ((56 : ℤ) : ℚ)
    ((56 : ℤ) : ℚ) 100 100 = some ⟨45, 45, 56, 56⟩ := by
  unfold clip_box rtrunc
  norm_num

/-- C1 (counterexample): at the S1 input (center = (50,50) pix,
size = (11,11) pix, 100x100 image) the code returns the box
(45,45,56,56), not the claimed (45,45,55,55); the upper bound is
pixcen (55.5) = 56, so the emitted NAXIS is 12, not 11, and the box is
not symmetric about the integer pixel-center 50. -/
theorem cutout_pixel_box_s1_counterexample :
    cutout_pixel_box wcs0 ⟨50, 50, Units.PIX⟩ ⟨11, 11, Units.PIX⟩ 100 100 ≠
      .ok (some ⟨45, 45, 55, 55⟩) ∧
    cutout_pixel_box wcs0 ⟨50, 50, Units.PIX⟩ ⟨11, 11, Units.PIX⟩ 100 100 =
      .ok (some ⟨45, 45, 56, 56⟩) := by
  have h : cutout_pixel_box wcs0 ⟨50, 50, Units.PIX⟩ ⟨11, 11, Units.PIX⟩ 100 100 =
      .ok (some ⟨45, 45, 56, 56⟩) := by
    rw [cutout_pixel_box_pix, pixcen_50_minus, pixcen_50_plus, clip_s1]
  refine ⟨?_, h⟩
  rw [h]
  intro hbad
  simp only [Except.ok.injEq, Option.some.injEq, PixBox.mk.injEq] at hbad
  omega

/-- C1 (amended): with pixel-unit center and size the box is computed
without consulting any WCS (the result does not depend on the WCS
argument) and equals the pixcen-derived bounds
pixcen (c - s/2) .. pixcen (c + s/2) per axis, clipped to the image; at
the S1 input the box is (45,45,56,56) and the emitted NAXIS1 = NAXIS2
values are 12; for an odd size 2k+1 about an integer center c the
per-axis bounds are c - k and c + k + 1, symmetric about c + 1/2 rather
than about the integer pixel-center. -/
theorem cutout_pixel_box_pixel_units_amended :
    (∀ (w w' : Wcs) (c0 c1 s0 s1 : ℚ) (n1 n2 : ℤ),
      cutout_pixel_box w ⟨c0, c1, Units.PIX⟩ ⟨s0, s1, Units.PIX⟩ n1 n2 =
      cutout_pixel_box w' ⟨c0, c1, Units.PIX⟩ ⟨s0, s1, Units.PIX⟩ n1 n2) ∧
    (∀ (w : Wcs) (c0 c1 s0 s1 : ℚ) (n1 n2 : ℤ),
      cutout_pixel_box w ⟨c0, c1, Units.PIX⟩ ⟨s0, s1, Units.PIX⟩ n1 n2 =
        .ok (clip_box ((pixcen (c0 - s0 * (1 / 2)) : ℚ))
          ((pixcen (c1 - s1 * (1 / 2)) : ℚ))
          ((pixcen (c0 + s0 * (1 / 2)) : ℚ))
          ((pixcen (c1 + s1 * (1 / 2)) : ℚ)) n1 n2)) ∧
    cutout_pixel_box wcs0 ⟨50, 50, Units.PIX⟩ ⟨11, 11, Units.PIX⟩ 100 100 =
      .ok (some ⟨45, 45, 56, 56⟩) ∧
    (∀ v : ℚ,
      modify_value ⟨45, 45, 56, 56⟩ ['N', 'A', 'X', 'I', 'S', '1'] v = some 12 ∧
      modify_value ⟨45, 45, 56, 56⟩ ['N', 'A', 'X', 'I', 'S', '2'] v = some 12) ∧
    (∀ (c k : ℤ),
      pixcen ((c : ℚ) - (2 * k + 1) * (1 / 2)) = c - k ∧
      pixcen ((c : ℚ) + (2 * k + 1) * (1 / 2)) = c + k + 1) := by
  refine ⟨?_, ?_, ?_, ?_, ?_⟩
  · intro w w' c0 c1 s0 s1 n1 n2
    rw [cutout_pixel_box_pix, cutout_pixel_box_pix]
  · intro w c0 c1 s0 s1 n1 n2
    exact cutout_pixel_box_pix w c0 c1 s0 s1 n1 n2
  · rw [cutout_pixel_box_pix, pixcen_50_minus, pixcen_50_plus, clip_s1]
  · intro v
    constructor <;> norm_num [modify_value]
  · intro c k
    constructor
    · have h : (c : ℚ) - (2 * k + 1) * (1 / 2) + 1 / 2 = ((c - k : ℤ) : ℚ) := by
        push_cast
        ring
      unfold pixcen
      rw [h, Int.floor_intCast]
    · have h : (c : ℚ) + (2 * k + 1) * (1 / 2) + 1 / 2 = ((c + k + 1 : ℤ) : ℚ) := by
        push_cast
        ring
      unfold pixcen
      rw [h, Int.floor_intCast]

theorem rtrunc_max_bounds {x : ℚ} {n : ℤ} (hn : 1 ≤ n) (hx : x ≤ (n : ℚ)) :
    1 ≤ rtrunc (max 1 x) ∧ rtrunc (max 1 x) ≤ n := by
  have hnn : (0 : ℚ) ≤ max 1 x := le_trans (by norm_num) (le_max_left 1 x)
  rw [rtrunc_of_nonneg hnn]
  constructor
  · exact Int.le_floor.mpr (by exact_mod_cast le_max_left 1 x)
  · have hle : max 1 x ≤ (n : ℚ) := max_le (by exact_mod_cast hn) hx
    calc ⌊max 1 x⌋ ≤ ⌊(n : ℚ)⌋ := Int.floor_le_floor hle
      _ = n := Int.floor_intCast n

theorem rtrunc_min_bounds {x : ℚ} {n : ℤ} (hn : 1 ≤ n) (hx : 1 ≤ x) :
    1 ≤ rtrunc (min (n : ℚ) x) ∧ rtrunc (min (n : ℚ) x) ≤ n := by
  have h1 : (1 : ℚ) ≤ min (n : ℚ) x := le_min (by exact_mod_cast hn) hx
  rw [rtrunc_of_nonneg (le_trans (by norm_num) h1)]
  constructor
  · exact Int.le_floor.mpr (by exact_mod_cast h1)
  · calc ⌊min (n : ℚ) x⌋ ≤ ⌊(n : ℚ)⌋ := Int.floor_le_floor (min_le_left _ _)
      _ = n := Int.floor_intCast n

theorem clip_box_guard {xmin ymin xmax ymax : ℚ} {n1 n2 : ℤ} {b : PixBox}
    (h : clip_box xmin ymin xmax ymax n1 n2 = some b) :
    xmin ≤ (n1 : ℚ) ∧ ymin ≤ (n2 : ℚ) ∧ 1 ≤ xmax ∧ 1 ≤ ymax ∧
    b = ⟨rtrunc (max 1 xmin), rtrunc (max 1 ymin),
         rtrunc (min (n1 : ℚ) xmax), rtrunc (min (n2 : ℚ) ymax)⟩ := by
  unfold clip_box at h
  split at h
  · exact absurd h (by simp)
  · next hguard =>
    push_neg at hguard
    obtain ⟨g1, g2, g3, g4⟩ := hguard
    exact ⟨g1, g2, g3, g4, (Option.some.injEq _ _).mp h.symm⟩

theorem clip_box_bounds {xmin ymin xmax ymax : ℚ} {n1 n2 : ℤ} {b : PixBox}
    (h1 : 1 ≤ n1) (h2 : 1 ≤ n2)
    (h : clip_box xmin ymin xmax ymax n1 n2 = some b) :
    1 ≤ b.xmin ∧ b.xmin ≤ n1 ∧ 1 ≤ b.xmax ∧ b.xmax ≤ n1 ∧
    1 ≤ b.ymin ∧ b.ymin ≤ n2 ∧ 1 ≤ b.ymax ∧ b.ymax ≤ n2 := by
  obtain ⟨g1, g2, g3, g4, hb⟩ := clip_box_guard h
  subst hb
  obtain ⟨a1, a2⟩ := rtrunc_max_bounds h1 g1
  obtain ⟨a3, a4⟩ := rtrunc_min_bounds h1 g3
  obtain ⟨a5, a6⟩ := rtrunc_max_bounds h2 g2
  obtain ⟨a7, a8⟩ := rtrunc_min_bounds h2 g4
  exact ⟨a1, a2, a3, a4, a5, a6, a7, a8⟩

theorem clip_box_ordered {xmin ymin xmax ymax : ℚ} {n1 n2 : ℤ} {b : PixBox}
    (h1 : 1 ≤ n1) (h2 : 1 ≤ n2) (hx : xmin ≤ xmax) (hy : ymin ≤ ymax)
    (h : clip_box xmin ymin xmax ymax n1 n2 = some b) :
    b.xmin ≤ b.xmax ∧ b.ymin ≤ b.ymax := by
  obtain ⟨g1, g2, g3, g4, hb⟩ := clip_box_guard h
  subst hb
  constructor
  · show rtrunc (max 1 xmin) ≤ rtrunc (min (n1 : ℚ) xmax)
    have ha : (0 : ℚ) ≤ max 1 xmin := le_trans (by norm_num) (le_max_left _ _)
    have hble : (1 : ℚ) ≤ min (n1 : ℚ) xmax := le_min (by exact_mod_cast h1) g3
    rw [rtrunc_of_nonneg ha, rtrunc_of_nonneg (le_trans (by norm_num) hble)]
    exact Int.floor_le_floor
      (max_le hble (le_min g1 hx))
  · show rtrunc (max 1 ymin) ≤ rtrunc (min (n2 : ℚ) ymax)
    have ha : (0 : ℚ) ≤ max 1 ymin := le_trans (by norm_num) (le_max_left _ _)
    have hble : (1 : ℚ) ≤ min (n2 : ℚ) ymax := le_min (by exact_mod_cast h2) g4
    rw [rtrunc_of_nonneg ha, rtrunc_of_nonneg (le_trans (by norm_num) hble)]
    exact Int.floor_le_floor
      (max_le hble (le_min g2 hy))

theorem cutout_ok_some {w : Wcs} {center size : Coords} {n1 n2 : ℤ} {b : PixBox}
    (h : cutout_pixel_box w center size n1 n2 = .ok (some b)) :
    ∃ q : ℚ × ℚ × ℚ × ℚ, compute_bounds w center size = .ok q ∧
      clip_box q.1 q.2.1 q.2.2.1 q.2.2.2 n1 n2 = some b := by
  unfold cutout_pixel_box at h
  cases hcb : compute_bounds w center size with
  | error e =>
    rw [hcb] at h
    exact absurd h (by simp)
  | ok q =>
    rw [hcb] at h
    exact ⟨q, rfl, by simpa using h⟩

theorem pixcen_mono {a b : ℚ} (h : a ≤ b) : pixcen a ≤ pixcen b :=
  Int.floor_le_floor (by linarith)

/-- C3 (counterexample): with both center and size in pixel units the
negative-size rejection of the non-pixel branch is bypassed, and at
center (50,50), size (-10,-10) on a 100x100 image the solver returns
the box (55,55,45,45) whose xmin exceeds its xmax, violating
1 <= xmin <= xmax <= NAXIS1. -/
theorem cutout_box_bounds_counterexample :
    cutout_pixel_box wcs0 ⟨50, 50, Units.PIX⟩ ⟨-10, -10, Units.PIX⟩ 100 100 =
      .ok (some ⟨55, 55, 45, 45⟩) ∧
    ¬((⟨55, 55, 45, 45⟩ : PixBox).xmin ≤ (⟨55, 55, 45, 45⟩ : PixBox).xmax) := by
  constructor
  · rw [cutout_pixel_box_pix]
    have ha : pixcen (50 - -10 * (1 / 2) : ℚ) = 55 := by
      unfold pixcen
      norm_num
    have hb : pixcen (50 + -10 * (1 / 2) : ℚ) = 45 := by
      unfold pixcen
      norm_num
    rw [ha, hb]
    unfold clip_box rtrunc
    norm_num
  · decide

/-- C3 (amended): whenever cutout_pixel_box returns a box on an image with
NAXIS1, NAXIS2 >= 1, every stored coordinate lies in [1, NAXIS] for its
axis; the orderings xmin <= xmax and ymin <= ymax additionally hold
whenever both center and size are in pixel units and the size components
are nonnegative (with a negative pixel-unit size the orderings can
fail, as the counterexample shows). -/
theorem cutout_box_bounds_amended (w : Wcs) (center size : Coords)
    (n1 n2 : ℤ) (b : PixBox) (h1 : 1 ≤ n1) (h2 : 1 ≤ n2)
    (h : cutout_pixel_box w center size n1 n2 = .ok (some b)) :
    (1 ≤ b.xmin ∧ b.xmin ≤ n1 ∧ 1 ≤ b.xmax ∧ b.xmax ≤ n1 ∧
     1 ≤ b.ymin ∧ b.ymin ≤ n2 ∧ 1 ≤ b.ymax ∧ b.ymax ≤ n2) ∧
    (center.units = Units.PIX → size.units = Units.PIX →
      0 ≤ size.c0 → 0 ≤ size.c1 → b.xmin ≤ b.xmax ∧ b.ymin ≤ b.ymax) := by
  obtain ⟨q, hq, hclip⟩ := cutout_ok_some h
  refine ⟨clip_box_bounds h1 h2 hclip, ?_⟩
  intro hcu hsu hs0 hs1
  obtain ⟨c0, c1, cu⟩ := center
  obtain ⟨s0, s1, su⟩ := size
  simp only at hcu hsu hs0 hs1
  subst hcu
  subst hsu
  rw [compute_bounds_pix] at hq
  have hqe : q = pix_bounds (c0, c1) (s0, s1) := by
    have := hq.symm
    simpa using this
  subst hqe
  unfold pix_bounds at hclip
  refine clip_box_ordered h1 h2 ?_ ?_ hclip
  · dsimp only
    exact_mod_cast pixcen_mono (by linarith : c0 - s0 * (1 / 2) ≤ c0 + s0 * (1 / 2))
  · dsimp only
    exact_mod_cast pixcen_mono (by linarith : c1 - s1 * (1 / 2) ≤ c1 + s1 * (1 / 2))

/-- Witness for the amended C3 theorem at a concrete all-pixel request. -/
theorem cutout_box_bounds_amended_witness :
    (1 ≤ (⟨40, 40, 60, 60⟩ : PixBox).xmin ∧ (⟨40, 40, 60, 60⟩ : PixBox).xmin ≤ 60 ∧
     1 ≤ (⟨40, 40, 60, 60⟩ : PixBox).xmax ∧ (⟨40, 40, 60, 60⟩ : PixBox).xmax ≤ 60 ∧
     1 ≤ (⟨40, 40, 60, 60⟩ : PixBox).ymin ∧ (⟨40, 40, 60, 60⟩ : PixBox).ymin ≤ 60 ∧
     1 ≤ (⟨40, 40, 60, 60⟩ : PixBox).ymax ∧ (⟨40, 40, 60, 60⟩ : PixBox).ymax ≤ 60) ∧
    ((⟨50, 50, Units.PIX⟩ : Coords).units = Units.PIX →
     (⟨20, 20, Units.PIX⟩ : Coords).units = Units.PIX →
     0 ≤ (⟨20, 20, Units.PIX⟩ : Coords).c0 →
     0 ≤ (⟨20, 20, Units.PIX⟩ : Coords).c1 →
     (⟨40, 40, 60, 60⟩ : PixBox).xmin ≤ (⟨40, 40, 60, 60⟩ : PixBox).xmax ∧
     (⟨40, 40, 60, 60⟩ : PixBox).ymin ≤ (⟨40, 40, 60, 60⟩ : PixBox).ymax) :=
  cutout_box_bounds_amended wcs0 ⟨50, 50, Units.PIX⟩ ⟨20, 20, Units.PIX⟩ 60 60
    ⟨40, 40, 60, 60⟩ (by decide) (by decide) (by
      rw [cutout_pixel_box_pix]
      have ha : pixcen (50 - 20 * (1 / 2) : ℚ) = 40 := by
        unfold pixcen
        norm_num
      have hb : pixcen (50 + 20 * (1 / 2) : ℚ) = 60 := by
        unfold pixcen
        norm_num
      rw [ha, hb]
      unfold clip_box rtrunc
      norm_num)

/-- C4 (counterexample): when both center and size are in pixel units the
negative-size test of cutout_pixel_box.cxx line 78 is never reached: at
center (10,10), size (-2,-2) on a 20x20 image the solver returns the box
(11,11,9,9) instead of failing BAD_REQUEST "Negative cutout size". -/
theorem negative_size_counterexample :
    cutout_pixel_box wcs0 ⟨10, 10, Units.PIX⟩ ⟨-2, -2, Units.PIX⟩ 20 20 =
      .ok (some ⟨11, 11, 9, 9⟩) ∧
    cutout_pixel_box wcs0 ⟨10, 10, Units.PIX⟩ ⟨-2, -2, Units.PIX⟩ 20 20 ≠
      .error ⟨HttpResponseCode.BAD_REQUEST, "Negative cutout size"⟩ := by
  have h : cutout_pixel_box wcs0 ⟨10, 10, Units.PIX⟩ ⟨-2, -2, Units.PIX⟩ 20 20 =
      .ok (some ⟨11, 11, 9, 9⟩) := by
    rw [cutout_pixel_box_pix]
    have ha : pixcen (10 - -2 * (1 / 2) : ℚ) = 11 := by
      unfold pixcen
      norm_num
    have hb : pixcen (10 + -2 * (1 / 2) : ℚ) = 9 := by
      unfold pixcen
      norm_num
    rw [ha, hb]
    unfold clip_box rtrunc
    norm_num
  refine ⟨h, ?_⟩
  rw [h]
  simp

/-- C4 (amended): the rejection BAD_REQUEST "Negative cutout size" is
raised for a negative size exactly on the branch where center or size is
in non-pixel units, provided the preceding center mapping succeeded; in
the all-pixel branch the size is never checked (counterexample above). -/
theorem negative_size_amended (w : Wcs) (center size : Coords)
    (sc : (ℚ × ℚ) × (ℚ × ℚ)) (n1 n2 : ℤ)
    (hu : center.units ≠ Units.PIX ∨ size.units ≠ Units.PIX)
    (hc : map_center w center = .ok sc)
    (hs : size.c0 < 0 ∨ size.c1 < 0) :
    cutout_pixel_box w center size n1 n2 =
      .error ⟨HttpResponseCode.BAD_REQUEST, "Negative cutout size"⟩ := by
  have hcb : compute_bounds w center size =
      .error ⟨HttpResponseCode.BAD_REQUEST, "Negative cutout size"⟩ := by
    unfold compute_bounds
    rw [if_pos hu, hc]
    dsimp only
    rw [if_pos hs]
  unfold cutout_pixel_box
  rw [hcb]

/-- Witness for the amended C4 theorem: a degree-unit center with a
negative pixel size is rejected. -/
theorem negative_size_amended_witness :
    cutout_pixel_box wcs0 ⟨0, 0, Units.DEG⟩ ⟨-1, -1, Units.PIX⟩ 100 100 =
      .error ⟨HttpResponseCode.BAD_REQUEST, "Negative cutout size"⟩ :=
  negative_size_amended wcs0 ⟨0, 0, Units.DEG⟩ ⟨-1, -1, Units.PIX⟩
    ((0, 0), (0, 0)) 100 100 (by decide) (by
      unfold map_center normalize_center to_degrees wrap_lon fmod rtrunc wcs0
      norm_num) (by norm_num)

theorem normalize_minus10 : normalize_center ⟨-10, 0, Units.DEG⟩ = .ok (350, 0) := by
  have hc : (⌈(-(1 / 36) : ℚ)⌉ : ℤ) = 0 := by
    rw [Int.ceil_neg]
    norm_num
  unfold normalize_center to_degrees wrap_lon fmod rtrunc
  norm_num [hc]

theorem normalize_360 : normalize_center ⟨360, 0, Units.DEG⟩ = .ok (0, 0) := by
  unfold normalize_center to_degrees wrap_lon fmod rtrunc
  norm_num

/-- C5: for a sky center in non-pixel units, the converted degrees are
rejected with BAD_REQUEST when the declination lies outside [-90, 90];
otherwise the longitude is wrapped by fmod into [0, 360) (negatives are
adjusted upward, with a collapse of an exact 360 to 0) while the
declination passes through unchanged, so the normalized pair always
satisfies 0 <= lon < 360 and -90 <= lat <= 90; in particular
"-10, 0 deg" normalizes to (350, 0) and "360, 0 deg" to (0, 0). -/
theorem center_normalization_spec (c : Coords) (_hu : c.units ≠ Units.PIX) :
    ((to_degrees c).2 < -90 ∨ 90 < (to_degrees c).2 →
      normalize_center c = .error ⟨HttpResponseCode.BAD_REQUEST,
        "Center declination out of range [-90, 90] deg"⟩) ∧
    (¬((to_degrees c).2 < -90 ∨ 90 < (to_degrees c).2) →
      normalize_center c = .ok (wrap_lon (to_degrees c).1, (to_degrees c).2) ∧
      0 ≤ wrap_lon (to_degrees c).1 ∧ wrap_lon (to_degrees c).1 < 360 ∧
      -90 ≤ (to_degrees c).2 ∧ (to_degrees c).2 ≤ 90) ∧
    normalize_center ⟨-10, 0, Units.DEG⟩ = .ok (350, 0) ∧
    normalize_center ⟨360, 0, Units.DEG⟩ = .ok (0, 0) := by
  refine ⟨?_, ?_, normalize_minus10, normalize_360⟩
  · intro hbad
    unfold normalize_center
    rw [if_pos hbad]
  · intro hok
    obtain ⟨hb1, hb2⟩ := wrap_lon_bounds (to_degrees c).1
    push_neg at hok
    refine ⟨?_, hb1, hb2, hok.1, hok.2⟩
    unfold normalize_center
    rw [if_neg]
    push_neg
    exact ⟨hok.1, hok.2⟩

/-- Witness for C5 at the non-pixel center (400, 45) deg. -/
theorem center_normalization_spec_witness :
    normalize_center ⟨400, 45, Units.DEG⟩ =
      .ok (wrap_lon (to_degrees ⟨400, 45, Units.DEG⟩).1,
           (to_degrees ⟨400, 45, Units.DEG⟩).2) ∧
    0 ≤ wrap_lon (to_degrees ⟨400, 45, Units.DEG⟩).1 ∧
    wrap_lon (to_degrees ⟨400, 45, Units.DEG⟩).1 < 360 ∧
    -90 ≤ (to_degrees ⟨400, 45, Units.DEG⟩).2 ∧
    (to_degrees ⟨400, 45, Units.DEG⟩).2 ≤ 90 :=
  (center_normalization_spec ⟨400, 45, Units.DEG⟩ (by decide)).2.1 (by
    unfold to_degrees
    norm_num)

/-- C6 (counterexample): the wcstools-based pair does not follow the
claimed policy: when the library signals failure code 9,
Wcs::sky_to_pixel returns the pixel pair instead of BAD_REQUEST (it only
tests for flag value 1), and Wcs::pixel_to_sky returns the converted
pair without inspecting the failure flag at all. -/
theorem wcs_policy_counterexample :
    sky_to_pixel wcstools9 (0, 0) = .ok (0, 0) ∧
    pixel_to_sky wcstools9 (0, 0) = .ok (0, 0) ∧
    (wcstools9.wcsc2pix (0, 0)).2 = 9 ∧
    sky_to_pixel wcstools9 (0, 0) ≠
      .error ⟨HttpResponseCode.BAD_REQUEST, "Invalid sky coordinates"⟩ := by
  refine ⟨?_, rfl, rfl, ?_⟩
  · unfold sky_to_pixel wcstools9
    norm_num
  · unfold sky_to_pixel wcstools9
    simp

/-- C6 (amended): the wcslib-based Wcs::pixelToSky and Wcs::skyToPixel
follow the symmetric policy of the claim (library return code 9 maps to
BAD_REQUEST, any other non-zero code to INTERNAL_SERVER_ERROR, zero to
success); the wcstools-based Wcs::pixel_to_sky never reports an error,
and Wcs::sky_to_pixel reports INTERNAL_SERVER_ERROR exactly when the
library off-scale flag equals 1. -/
theorem wcs_policy_amended (wl : Wcslib) (wt : Wcstools) (p s : ℚ × ℚ) :
    ((wl.wcsp2s p).1 = 9 →
      pixelToSky wl p = .error ⟨HttpResponseCode.BAD_REQUEST,
        "Invalid pixel coordinates"⟩) ∧
    ((wl.wcsp2s p).1 ≠ 9 → (wl.wcsp2s p).1 ≠ 0 →
      pixelToSky wl p = .error ⟨HttpResponseCode.INTERNAL_SERVER_ERROR,
        "Failed to convert pixel coordinates to sky coordinates"⟩) ∧
    ((wl.wcss2p s).1 = 9 →
      skyToPixel wl s = .error ⟨HttpResponseCode.BAD_REQUEST,
        "Invalid sky coordinates"⟩) ∧
    ((wl.wcss2p s).1 ≠ 9 → (wl.wcss2p s).1 ≠ 0 →
      skyToPixel wl s = .error ⟨HttpResponseCode.INTERNAL_SERVER_ERROR,
        "Failed to convert sky coordinates to pixel coordinates"⟩) ∧
    pixel_to_sky wt p = .ok (wt.pix2wcs p).1 ∧
    ((wt.wcsc2pix s).2 = 1 →
      sky_to_pixel wt s = .error ⟨HttpResponseCode.INTERNAL_SERVER_ERROR,
        "Failed to convert sky coordinates to pixel coordinates"⟩) ∧
    ((wt.wcsc2pix s).2 ≠ 1 → sky_to_pixel wt s = .ok (wt.wcsc2pix s).1) := by
  refine ⟨?_, ?_, ?_, ?_, rfl, ?_, ?_⟩
  · intro h9
    unfold pixelToSky
    rw [if_pos h9]
  · intro h9 h0
    unfold pixelToSky
    rw [if_neg h9, if_pos h0]
  · intro h9
    unfold skyToPixel
    rw [if_pos h9]
  · intro h9 h0
    unfold skyToPixel
    rw [if_neg h9, if_pos h0]
  · intro h1
    unfold sky_to_pixel
    rw [if_pos h1]
  · intro h1
    unfold sky_to_pixel
    rw [if_neg h1]

/-- Witness for the amended C6 theorem with a library reporting code 9
in both directions. -/
theorem wcs_policy_amended_witness :
    pixelToSky wcslib9 (0, 0) = .error ⟨HttpResponseCode.BAD_REQUEST,
      "Invalid pixel coordinates"⟩ ∧
    skyToPixel wcslib9 (0, 0) = .error ⟨HttpResponseCode.BAD_REQUEST,
      "Invalid sky coordinates"⟩ :=
  ⟨(wcs_policy_amended wcslib9 wcstools9 (0, 0) (0, 0)).1 (by decide),
   (wcs_policy_amended wcslib9 wcstools9 (0, 0) (0, 0)).2.2.1 (by decide)⟩

/-- C7: the card-value rewrite of a cutout HDU header: emitted NAXIS1 and
NAXIS2 values equal box max - box min + 1 for their axis, emitted LTV1
and LTV2 values equal the source value plus (box min - 1), and emitted
CRPIX1, CRPIX2 and alternate CRPIX{1,2}[A-Z] values equal the source
value plus (1 - box min); a card so modified is emitted by the card loop
with exactly that value. -/
theorem header_rewrite_values (box : PixBox) (v : ℚ) (a : Char)
    (hA : 'A' ≤ a) (hZ : a ≤ 'Z') :
    modify_value box ['N', 'A', 'X', 'I', 'S', '1'] v =
      some ((box.xmax - box.xmin + 1 : ℤ) : ℚ) ∧
    modify_value box ['N', 'A', 'X', 'I', 'S', '2'] v =
      some ((box.ymax - box.ymin + 1 : ℤ) : ℚ) ∧
    modify_value box ['L', 'T', 'V', '1'] v = some (v + ((box.xmin : ℚ) - 1)) ∧
    modify_value box ['L', 'T', 'V', '2'] v = some (v + ((box.ymin : ℚ) - 1)) ∧
    modify_value box ['C', 'R', 'P', 'I', 'X', '1'] v =
      some (v + (1 - (box.xmin : ℚ))) ∧
    modify_value box ['C', 'R', 'P', 'I', 'X', '2'] v =
      some (v + (1 - (box.ymin : ℚ))) ∧
    modify_value box ['C', 'R', 'P', 'I', 'X', '1', a] v =
      some (v + (1 - (box.xmin : ℚ))) ∧
    modify_value box ['C', 'R', 'P', 'I', 'X', '2', a] v =
      some (v + (1 - (box.ymin : ℚ))) ∧
    (∀ (c : Card) (rest : List Card) (q : ℚ),
      (false && skip_compressed c.raw) = false →
      skip_checksum c.raw = false →
      modify_value box c.keyname c.value = some q →
      process_cards false box (c :: rest) =
        OutCard.made c.keyname (CardValue.num q) c.comment ::
          process_cards false box rest) := by
  refine ⟨rfl, rfl, rfl, rfl, rfl, rfl, ?_, ?_, ?_⟩
  · simp [modify_value, hA, hZ]
  · simp [modify_value, hA, hZ]
  · intro c rest q _ hskip hmod
    simp [process_cards, hskip, hmod]

/-- Witness for C7 at the box (2,3,10,20) and source value 5. -/
theorem header_rewrite_values_witness :
    modify_value ⟨2, 3, 10, 20⟩ ['N', 'A', 'X', 'I', 'S', '1'] 5 =
      some (((⟨2, 3, 10, 20⟩ : PixBox).xmax - (⟨2, 3, 10, 20⟩ : PixBox).xmin + 1 : ℤ) : ℚ) ∧
    modify_value ⟨2, 3, 10, 20⟩ ['L', 'T', 'V', '1'] 5 =
      some (5 + (((⟨2, 3, 10, 20⟩ : PixBox).xmin : ℚ) - 1)) ∧
    modify_value ⟨2, 3, 10, 20⟩ ['C', 'R', 'P', 'I', 'X', '1', 'A'] 5 =
      some (5 + (1 - ((⟨2, 3, 10, 20⟩ : PixBox).xmin : ℚ))) :=
  ⟨(header_rewrite_values ⟨2, 3, 10, 20⟩ 5 'A' (by decide) (by decide)).1,
   (header_rewrite_values ⟨2, 3, 10, 20⟩ 5 'A' (by decide) (by decide)).2.2.1,
   (header_rewrite_values ⟨2, 3, 10, 20⟩ 5 'A' (by decide) (by decide)).2.2.2.2.2.2.1⟩

theorem process_cards_eq_bind (is_comp : Bool) (box : PixBox)
    (cards : List Card) :
    process_cards is_comp box cards = cards.flatMap (emit_card is_comp box) := by
  induction cards with
  | nil => rfl
  | cons c rest ih =>
    rw [List.flatMap_cons]
    simp only [process_cards, emit_card]
    split
    · simpa using ih
    · split
      · simpa using ih
      · split
        · split
          · simp [ih]
          · simp [ih]
        · simp [ih]

theorem emit_card_cases (is_comp : Bool) (box : PixBox) (c : Card)
    (out : OutCard) (h : out ∈ emit_card is_comp box c) :
    (modify_value box c.keyname c.value = none ∧ out = OutCard.raw c.raw) ∨
    (∃ q, modify_value box c.keyname c.value = some q ∧
      out = OutCard.made c.keyname (CardValue.num q) c.comment) ∨
    (is_comp = true ∧ (out = pcount_card ∨ out = gcount_card)) := by
  unfold emit_card at h
  split at h
  · simp at h
  · split at h
    · simp at h
    · split at h
      · next q hq =>
        split at h
        · next hcomp =>
          simp only [List.mem_cons, List.not_mem_nil, or_false] at h
          have hic : is_comp = true := (Bool.and_eq_true _ _ ▸ hcomp).1
          rcases h with h | h | h
          · exact Or.inr (Or.inl ⟨q, hq, h⟩)
          · exact Or.inr (Or.inr ⟨hic, Or.inl h⟩)
          · exact Or.inr (Or.inr ⟨hic, Or.inr h⟩)
        · simp only [List.mem_singleton] at h
          exact Or.inr (Or.inl ⟨q, hq, h⟩)
      · next hq =>
        simp only [List.mem_singleton] at h
        exact Or.inl ⟨hq, h⟩

/-- C8: frame effect of the header rewrite.  The rewritten card stream is
the in-order concatenation of each source card's contribution; every
emitted card is either a byte-identical copy of an unmodified source
card, a rebuilt card for a source card whose key the rewrite modifies
(NAXIS1/2, LTV1/2, CRPIX1/2, CRPIX{1,2}[A-Z], per modify_value), or an
inserted PCOUNT/GCOUNT card of the de-compressed transition; and every
source card that is not dropped (CHECKSUM/DATASUM, or the
compressed-mode EXTEND/reference-comment/PCOUNT/GCOUNT skips) and not
modified appears byte-identical in the output. -/
theorem header_rewrite_frame (is_comp : Bool) (box : PixBox)
    (cards : List Card) :
    process_cards is_comp box cards = cards.flatMap (emit_card is_comp box) ∧
    (∀ out ∈ process_cards is_comp box cards,
      (∃ c ∈ cards, modify_value box c.keyname c.value = none ∧
        out = OutCard.raw c.raw) ∨
      (∃ c ∈ cards, ∃ q, modify_value box c.keyname c.value = some q ∧
        out = OutCard.made c.keyname (CardValue.num q) c.comment) ∨
      (is_comp = true ∧ (out = pcount_card ∨ out = gcount_card))) ∧
    (∀ c ∈ cards, (is_comp && skip_compressed c.raw) = false →
      skip_checksum c.raw = false →
      modify_value box c.keyname c.value = none →
      OutCard.raw c.raw ∈ process_cards is_comp box cards) := by
  refine ⟨process_cards_eq_bind is_comp box cards, ?_, ?_⟩
  · intro out hout
    rw [process_cards_eq_bind] at hout
    obtain ⟨c, hc, hmem⟩ := List.mem_flatMap.mp hout
    rcases emit_card_cases is_comp box c out hmem with h | h | h
    · exact Or.inl ⟨c, hc, h⟩
    · exact Or.inr (Or.inl ⟨c, hc, h⟩)
    · exact Or.inr (Or.inr h)
  · intro c hc hskip1 hskip2 hmod
    rw [process_cards_eq_bind]
    refine List.mem_flatMap.mpr ⟨c, hc, ?_⟩
    unfold emit_card
    rw [hskip1, hmod]
    simp [hskip2]

/-- Witness for C8: a plain card passes through byte-identical. -/
theorem header_rewrite_frame_witness :
    OutCard.raw ['O', 'B', 'J', 'E', 'C', 'T'] ∈
      process_cards false ⟨1, 1, 1, 1⟩
        [⟨['O', 'B', 'J', 'E', 'C', 'T'], ['O', 'B', 'J', 'E', 'C', 'T'], 0, []⟩] :=
  (header_rewrite_frame false ⟨1, 1, 1, 1⟩
    [⟨['O', 'B', 'J', 'E', 'C', 'T'], ['O', 'B', 'J', 'E', 'C', 'T'], 0, []⟩]).2.2
    ⟨['O', 'B', 'J', 'E', 'C', 'T'], ['O', 'B', 'J', 'E', 'C', 'T'], 0, []⟩
    (by decide) (by decide) (by decide) (by decide)

theorem pad_block_mod (m : ℕ) : pad_block m % 2880 = 0 ∧ m ≤ pad_block m := by
  unfold pad_block FITS_BLOCK_LENGTH
  constructor <;> split <;> omega

theorem end_header_mod (n : ℕ) (w : Bool) :
    end_header n w % 2880 = 0 ∧ n ≤ end_header n w ∧
    (w = true → n < end_header n w) := by
  unfold end_header
  cases w
  · simp only [Bool.false_eq_true, if_false]
    obtain ⟨h1, h2⟩ := pad_block_mod n
    exact ⟨h1, h2, fun h => absurd h (by simp)⟩
  · simp only [if_true]
    obtain ⟨h1, h2⟩ := pad_block_mod (n + 3)
    exact ⟨h1, by omega, fun _ => by omega⟩

theorem write_subimage_mod (is_comp : Bool) (box : PixBox) (bitpix : ℤ)
    (n : ℕ) :
    write_subimage is_comp box bitpix n % 2880 = 0 ∧
    n ≤ write_subimage is_comp box bitpix n := by
  unfold write_subimage
  obtain ⟨h1, h2⟩ := pad_block_mod
    (n + (box.xmax - box.xmin + 1).toNat * bytes_per_pixel bitpix *
      (box.ymax - box.ymin + 1).toNat)
  exact ⟨h1, le_trans (Nat.le_add_right _ _) h2⟩

/-- C9: every HDU emitted by the streamer adds a positive multiple of 2880
bytes to the stream, provided the stream position at the start of the
HDU is block-aligned (which holds inductively from position 0): the
verbatim-copied HDU (header plus whole data blocks), the header-only
copy of a 0-axis image HDU, and the rewritten cutout HDU (whose header
holds at least one card, the END card of the converted source header). -/
theorem hdu_block_alignment (n nkeys nblocks : ℕ) (is_comp : Bool)
    (box : PixBox) (bitpix : ℤ) (cards : List Card)
    (hn : n % 2880 = 0)
    (hcards : 0 < (emit_header_cards is_comp box cards).length) :
    ((copy_data nblocks (copy_header nkeys n) - n) % 2880 = 0 ∧
      n < copy_data nblocks (copy_header nkeys n)) ∧
    ((copy_header nkeys n - n) % 2880 = 0 ∧ n < copy_header nkeys n) ∧
    ((stream_cutout_hdu is_comp box bitpix cards n - n) % 2880 = 0 ∧
      n < stream_cutout_hdu is_comp box bitpix cards n) := by
  have hch : copy_header nkeys n % 2880 = 0 ∧ n < copy_header nkeys n := by
    unfold copy_header
    obtain ⟨h1, h2, h3⟩ := end_header_mod (n + FITS_CARD_LENGTH * nkeys) true
    have := h3 rfl
    refine ⟨h1, ?_⟩
    unfold FITS_CARD_LENGTH at *
    omega
  have hcd : copy_data nblocks (copy_header nkeys n) % 2880 = 0 ∧
      n < copy_data nblocks (copy_header nkeys n) := by
    unfold copy_data FITS_BLOCK_LENGTH
    omega
  have hsc : stream_cutout_hdu is_comp box bitpix cards n % 2880 = 0 ∧
      n < stream_cutout_hdu is_comp box bitpix cards n := by
    unfold stream_cutout_hdu
    set L := (emit_header_cards is_comp box cards).length with hL
    obtain ⟨e1, e2, _⟩ := end_header_mod (n + FITS_CARD_LENGTH * L) false
    obtain ⟨w1, w2⟩ := write_subimage_mod is_comp box bitpix
      (end_header (n + FITS_CARD_LENGTH * L) false)
    refine ⟨w1, ?_⟩
    unfold FITS_CARD_LENGTH at *
    omega
  exact ⟨⟨by omega, hcd.2⟩, ⟨by omega, hch.2⟩, ⟨by omega, hsc.2⟩⟩

/-- Witness for C9 at stream position 0 with a one-card cutout header. -/
theorem hdu_block_alignment_witness :
    ((copy_data 2 (copy_header 3 0) - 0) % 2880 = 0 ∧
      0 < copy_data 2 (copy_header 3 0)) ∧
    ((copy_header 3 0 - 0) % 2880 = 0 ∧ 0 < copy_header 3 0) ∧
    ((stream_cutout_hdu false ⟨1, 1, 1, 1⟩ 16
        [⟨['E', 'N', 'D'], ['E', 'N', 'D'], 0, []⟩] 0 - 0) % 2880 = 0 ∧
      0 < stream_cutout_hdu false ⟨1, 1, 1, 1⟩ 16
        [⟨['E', 'N', 'D'], ['E', 'N', 'D'], 0, []⟩] 0) :=
  hdu_block_alignment 0 3 2 false ⟨1, 1, 1, 1⟩ 16
    [⟨['E', 'N', 'D'], ['E', 'N', 'D'], 0, []⟩] (by decide) (by decide)

/-- C10: any gzip parameter value accepted by both the boolean true regex
and the boolean false regex parses as true, because parseBool tests the
true pattern first; the one-letter value "o" (a prefix of both "on" and
"off") matches both patterns, so a cutout request with gzip=o selects
the gzip-compressed output writer. -/
theorem parse_bool_gzip_true_first :
    (∀ (s : List Char) (d : Bool) (k : String),
      re_match trueRe s = true → re_match falseRe s = true →
      parseBool k (some s) d = .ok true) ∧
    re_match trueRe ['o'] = true ∧
    re_match falseRe ['o'] = true ∧
    cutout_uses_gzip (some ['o']) = .ok true := by
  refine ⟨?_, by decide, by decide, by decide⟩
  intro s d k ht _
  unfold parseBool
  dsimp only
  rw [if_pos ht]

/-- Witness for C10 at the value "o". -/
theorem parse_bool_gzip_true_first_witness :
    parseBool "gzip" (some ['o']) false = .ok true :=
  parse_bool_gzip_true_first.1 ['o'] false "gzip" (by decide) (by decide)

end ibe

